import Mathlib

/-!
# Verification of `turku_storage/ping.py` (turku-storage)

Shallow embedding of the storage-node ping/backup session logic of
`src/turku_storage/ping.py` (`StoragePing.process_ping` and helpers), and
proofs settling the specification claims about it.

Conventions of the embedding:
* Python strings are Lean `String`s; Python dict fields that may be absent are
  `Option` fields, and "truthiness" of an optional string/bool field
  (`"k" in d and d["k"]`) is `Option`-presence plus non-emptiness / `true`.
* Filesystem state that the claims depend on (the `<source>.snapshots`
  directory, the `var/machines` symlink farm) is modelled as association lists
  of named entries; `os.symlink`, `os.rename`, `shutil.rmtree`, `os.path.isdir`,
  `os.path.islink`, `os.path.exists` are modelled with their POSIX semantics
  (notably: `os.symlink` fails with `EEXIST` if the destination name exists,
  `os.path.isdir`/`os.path.exists` follow symlinks, `shutil.rmtree` refuses a
  symlink).
* External collaborators that are not part of the source of this module
  (`random_weighted`, `get_snapshots_to_delete`, `get_latest_snapshot` from
  `utils`, the textual output of the `attic` tool) are parameters of the embedding,
  quantified over in the theorems.
* Python exceptions are `Except OsError` results; an `Except.error` propagates
  out of `process_ping` (aborting the session).
-/

namespace TurkuStorage

/-- Errors raised by the modelled OS / session operations. -/
inductive OsError where
  /-- `OSError(EEXIST)`: `os.symlink` (or `os.rename`) destination exists. -/
  | fileExists : OsError
  /-- `OSError(ENOENT)`: source of `os.rename` / target of `shutil.rmtree` missing. -/
  | notFound : OsError
  /-- `shutil.rmtree` called on a symbolic link (refused). -/
  | rmtreeOnSymlink : OsError
  /-- `Exception("Cannot find a suitable storage directory")` (line 141). -/
  | noStorage : OsError
  deriving Repr, DecidableEq

/-- Truthiness of an optional string field: `"k" in d and d["k"]`. -/
def strTruthy : Option String → Bool
  | some s => s ≠ ""
  | none => false

/-- Truthiness of an optional boolean field: `"k" in d and d["k"]`. -/
def boolTruthy : Option Bool → Bool
  | some b => b
  | none => false

/-! ## Snapshot mode selection (ping.py lines 118-123)

```python
snapshot_mode = self.config["snapshot_mode"]
if snapshot_mode == "link-dest":
    if "large_rotating_files" in s and s["large_rotating_files"]:
        snapshot_mode = "none"
    if "large_modifying_files" in s and s["large_modifying_files"]:
        snapshot_mode = "none"
```

Mode strings are those of the source: `"none"` is the FULL mode of the spec (in-place)
mode, `"link-dest"` is INCREMENTAL, `"attic"` is ARCHIVE. -/

/-- The per-source snapshot mode computed from the configured global default
and the `large_rotating_files` / `large_modifying_files` flags of the source. -/
def snapshotModeFor (globalDefault : String) (largeRotating largeModifying : Option Bool) :
    String :=
  if globalDefault = "link-dest" then
    let m := if boolTruthy largeRotating then "none" else globalDefault
    let m := if boolTruthy largeModifying then "none" else m
    m
  else
    globalDefault

/-! ## Alias (machine symlink) name derivation (ping.py lines 147-152)

```python
machine_symlink = machine["unit_name"]
if "service_name" in machine and machine["service_name"]:
    machine_symlink = machine["service_name"] + "-"
if "environment_name" in machine and machine["environment_name"]:
    machine_symlink = machine["environment_name"] + "-"
machine_symlink = machine_symlink.replace("/", "_")
```
-/

/-- Python `str.replace("/", "_")` for the single-character pattern: replace
every `/` by `_`. (Defined on the character list so that it evaluates by
kernel reduction.) -/
def replaceSlashes (s : String) : String :=
  ⟨s.data.map (fun c => if c = '/' then '_' else c)⟩

/-- The human-readable machine alias name as the source derives it. -/
def machineSymlinkName (unitName : String) (serviceName environmentName : Option String) :
    String :=
  let m := unitName
  let m := match serviceName with
    | some s => if s ≠ "" then s ++ "-" else m
    | none => m
  let m := match environmentName with
    | some e => if e ≠ "" then e ++ "-" else m
    | none => m
  replaceSlashes m

/-- Modelled from the words of the spec claim (for refinement comparison only):
"the service name when present and non-empty, else the environment name when
present and non-empty, else the unit name, with path separators replaced". -/
def aliasNameClaim (unitName : String) (serviceName environmentName : Option String) :
    String :=
  let m :=
    if strTruthy serviceName then serviceName.getD ""
    else if strTruthy environmentName then environmentName.getD ""
    else unitName
  replaceSlashes m

/-! ## Transfer filter construction (ping.py lines 184-194)

```python
filter_data = ""
if "filter" in s:
    for filter in s["filter"]:
        if filter.startswith("merge") or filter.startswith(":"):
            # Do not allow local merges
            continue
        filter_data += "%s\n" % filter
if "exclude" in s:
    for exclude in s["exclude"]:
        filter_data += "- %s\n" % exclude
```
-/

/-- Does a source-supplied filter entry begin with a local-merge directive?
(`filter.startswith("merge") or filter.startswith(":")`). -/
def isLocalMerge (f : String) : Bool :=
  f.startsWith "merge" || f.startsWith ":"

/-- The merged filter-file contents built from the `filter` and
`exclude` lists of the source (the string written to the temporary filter file). -/
def buildFilterData (filters excludes : List String) : String :=
  let d := filters.foldl
    (fun acc f => if isLocalMerge f then acc else acc ++ f ++ "\n") ""
  excludes.foldl (fun acc e => acc ++ "- " ++ e ++ "\n") d

/-! ## Transfer exit-status classification (ping.py lines 211-215)

```python
returncode = self.run_logging(rsync_args, env=rsync_env)
if returncode in (0, 24):
    success = True
else:
    success = False
```
-/

/-- Classification of the exit status of the transfer tool. -/
def transferSuccess (returncode : Int) : Bool :=
  returncode == 0 || returncode == 24

/-! ## Model of the `<source>.snapshots` directory

A directory is a finite list of named entries; an entry is either a
subdirectory or a symbolic link (whose target, in this code, is always a bare
name interpreted relative to the same directory). The list order stands in for
`os.listdir` order; no claim depends on it. -/

/-- One entry of the snapshots directory. -/
inductive SnapEntry where
  /-- A subdirectory (a completed snapshot, or the in-flight `working` dir). -/
  | dir : SnapEntry
  /-- A symbolic link to the named sibling entry (the `latest` pointer). -/
  | link (target : String) : SnapEntry
  deriving Repr, DecidableEq

/-- The snapshots directory: named entries, in `os.listdir` order. -/
abbrev SnapFS := List (String × SnapEntry)

namespace SnapFS

/-- Look up the entry with the given name. -/
def lookup (fs : SnapFS) (n : String) : Option SnapEntry :=
  match fs with
  | [] => none
  | (k, e) :: rest => if k = n then some e else lookup rest n

/-- `os.listdir`: the entry names. -/
def names (fs : SnapFS) : List String := fs.map (fun p => p.1)

/-- `os.path.islink(dir/n)`. -/
def islink (fs : SnapFS) (n : String) : Bool :=
  match lookup fs n with
  | some (.link _) => true
  | _ => false

/-- `os.path.isdir(dir/n)`: true for a directory, and for a symlink whose
target is a directory (isdir follows symlinks). -/
def isdir (fs : SnapFS) (n : String) : Bool :=
  match lookup fs n with
  | some .dir => true
  | some (.link t) =>
    match lookup fs t with
    | some .dir => true
    | _ => false
  | none => false

/-- `os.path.exists(dir/n)`: follows symlinks, so a dangling symlink does not
"exist". -/
def pexists (fs : SnapFS) (n : String) : Bool :=
  match lookup fs n with
  | some .dir => true
  | some (.link t) => (lookup fs t).isSome
  | none => false

/-- `os.symlink(target, dir/n)`: fails with `EEXIST` if the name `n` is
already present (even as a dangling symlink); never overwrites. -/
def symlink (fs : SnapFS) (target n : String) : Except OsError SnapFS :=
  if (lookup fs n).isSome then .error .fileExists
  else .ok (fs ++ [(n, .link target)])

/-- `os.rename(dir/old, dir/new)`: fails if `old` is absent or `new` is
already present. -/
def rename (fs : SnapFS) (old new : String) : Except OsError SnapFS :=
  match lookup fs old with
  | none => .error .notFound
  | some e =>
    if (lookup fs new).isSome then .error .fileExists
    else .ok ((fs.filter (fun p => p.1 ≠ old)) ++ [(new, e)])

/-- `shutil.rmtree(dir/n)`: removes a directory entry; refuses a symlink,
fails if absent. -/
def rmtree (fs : SnapFS) (n : String) : Except OsError SnapFS :=
  match lookup fs n with
  | none => .error .notFound
  | some (.link _) => .error .rmtreeOnSymlink
  | some .dir => .ok (fs.filter (fun p => p.1 ≠ n))

end SnapFS

/-- The committed snapshot identifiers of a snapshots directory: names of the
actual subdirectories, excluding the `working` in-progress entry and excluding
pointer symlinks such as `latest`. (Claim-level notion, for comparison with
what the code computes.) -/
def committedSnapshots (fs : SnapFS) : List String :=
  (fs.filter (fun p => p.2 = SnapEntry.dir ∧ p.1 ≠ "working")).map (fun p => p.1)

/-- The candidate list the code passes to the retention evaluator in
`link-dest` mode (ping.py line 250):
`[d for d in os.listdir(snapshot_dir) if os.path.isdir(os.path.join(snapshot_dir, d))]`. -/
def retentionCandidates (fs : SnapFS) : List String :=
  (SnapFS.names fs).filter (fun d => SnapFS.isdir fs d)

/-! ## External collaborators (from `utils`, not part of this module) -/

/-- External collaborators of `process_ping` whose implementations live
outside this module (`utils.get_snapshots_to_delete`, and the textual output
of `attic info`). The theorems quantify over them. -/
structure Externals where
  /-- `utils.get_snapshots_to_delete(retention_policy, snapshot_list)`:
  the external retention-tier evaluator. -/
  getSnapshotsToDelete : String → List String → List String
  /-- Captured output of `attic info repo::snapshot_name` for the freshly
  created archive entry. -/
  atticInfo : String → String

/-! ## Snapshot promotion and retention pruning, `link-dest` mode
(ping.py lines 238-254)

```python
summary_output = ""
if base_snapshot:
    summary_output = summary_output + "Base snapshot: %s\n" % base_snapshot
snapshot_name = datetime.datetime.now().isoformat()
os.rename(os.path.join(snapshot_dir, "working"), os.path.join(snapshot_dir, snapshot_name))
if os.path.exists(os.path.join(snapshot_dir, "latest")):
    if os.path.islink(os.path.join(snapshot_dir, "latest")):
        os.symlink(snapshot_name, os.path.join(snapshot_dir, "latest"))
else:
    os.symlink(snapshot_name, os.path.join(snapshot_dir, "latest"))
if "retention" in s:
    dirs = [d for d in os.listdir(snapshot_dir) if os.path.isdir(os.path.join(snapshot_dir, d))]
    to_delete = get_snapshots_to_delete(s["retention"], dirs)
    for snapshot in to_delete:
        shutil.rmtree(os.path.join(snapshot_dir, snapshot))
        summary_output = summary_output + "Removed old snapshot: %s\n" % snapshot
```
-/

/-- The pruning loop of `link-dest` mode: `shutil.rmtree` each identifier the
evaluator returned, appending a summary line per deletion. -/
def pruneSnapshots (fs : SnapFS) (toDelete : List String) (summary : String) :
    Except OsError (SnapFS × String) :=
  match toDelete with
  | [] => .ok (fs, summary)
  | d :: rest => do
    let fs' ← SnapFS.rmtree fs d
    pruneSnapshots fs' rest (summary ++ "Removed old snapshot: " ++ d ++ "\n")

/-- Promotion (and retention pruning) after a successful transfer in
`link-dest` mode. `now` is `datetime.datetime.now().isoformat()`; `base` is
the `base_snapshot` computed before the transfer; `retention` is the optional
retention policy of the source. Returns the new directory state, the snapshot
name, and the summary string. -/
def promoteLinkDest (ext : Externals) (fs : SnapFS) (now : String)
    (base : Option String) (retention : Option String) :
    Except OsError (SnapFS × String × String) := do
  let summary0 := match base with
    | some b => "Base snapshot: " ++ b ++ "\n"
    | none => ""
  let fs1 ← SnapFS.rename fs "working" now
  let fs2 ←
    if SnapFS.pexists fs1 "latest" then
      if SnapFS.islink fs1 "latest" then
        SnapFS.symlink fs1 now "latest"
      else
        pure fs1
    else
      SnapFS.symlink fs1 now "latest"
  match retention with
  | some policy =>
    let dirs := retentionCandidates fs2
    let toDelete := ext.getSnapshotsToDelete policy dirs
    let (fs3, summary) ← pruneSnapshots fs2 toDelete summary0
    .ok (fs3, now, summary)
  | none => .ok (fs2, now, summary0)

/-! ## Archive (`attic`) mode promotion (ping.py lines 222-237)

The attic repository is modelled as `Option (List String)`: `none` means the
repository directory `<dest>.attic` does not exist yet, `some l` means it
exists and holds archive entries `l` (what `attic list` reports, in creation
order). `attic delete` of each named entry removes it; `run_logging` ignores
the exit status of the tool, so deleting a missing entry is a no-op here. -/

/-- Promotion (and retention pruning) after a successful transfer in `attic`
mode. Returns the new repository state and the summary (`attic info` output). -/
def promoteAttic (ext : Externals) (archive : Option (List String)) (now : String)
    (retention : Option String) : Option (List String) × String :=
  let entries0 := match archive with
    | none => []
    | some l => l
  let entries1 := entries0 ++ [now]
  let entries2 := match retention with
    | some policy =>
      let toDelete := ext.getSnapshotsToDelete policy entries1
      toDelete.foldl (fun acc d => acc.erase d) entries1
    | none => entries1
  (some entries2, ext.atticInfo now)

/-! ## Per-source outcome after the transfer (ping.py lines 211-272)

Everything from the exit-status classification to the `storage_ping_source_update`
API payload. The constant fields of the payload (`name`, `secret`, `machine_uuid`)
are session constants and omitted. -/

/-- The `backup_data` part of the `storage_ping_source_update` payload. -/
structure BackupData where
  snapshot : Option String
  summary : Option String
  time_begin : Nat
  time_end : Nat
  deriving Repr, DecidableEq

/-- The per-source `storage_ping_source_update` API payload. -/
structure SourceUpdate where
  source_name : String
  success : Bool
  backup_data : BackupData
  deriving Repr, DecidableEq

/-- Per-(machine, source) storage state touched by promotion. -/
structure SourceState where
  /-- The `<source>.snapshots` directory (`link-dest` mode). -/
  snaps : SnapFS
  /-- The `<source>.attic` repository (`attic` mode); `none` = not created. -/
  archive : Option (List String)
  deriving Repr, DecidableEq

/-- The per-source processing from the exit status of the transfer tool to the
API payload (ping.py lines 211-272): classify the status, promote (per
snapshot mode) on success or record the diagnostic summary on failure, and
build the `storage_ping_source_update` payload. An `Except.error` is a Python
exception escaping the loop body (aborting the whole session). -/
def afterTransfer (ext : Externals) (mode : String) (st : SourceState)
    (sname : String) (now : String) (base : Option String)
    (retention : Option String) (returncode : Int) (t0 t1 : Nat) :
    Except OsError (SourceState × SourceUpdate) :=
  let success := transferSuccess returncode
  if success then
    if mode = "attic" then
      let (archive', summary) := promoteAttic ext st.archive now retention
      .ok ({ st with archive := archive' },
           ⟨sname, true, ⟨some now, some summary, t0, t1⟩⟩)
    else if mode = "link-dest" then do
      let (fs', snapshotName, summary) ← promoteLinkDest ext st.snaps now base retention
      .ok ({ st with snaps := fs' },
           ⟨sname, true, ⟨some snapshotName, some summary, t0, t1⟩⟩)
    else
      .ok (st, ⟨sname, true, ⟨none, none, t0, t1⟩⟩)
  else
    .ok (st, ⟨sname, false,
         ⟨none, some ("rsync exited with return code " ++ toString returncode), t0, t1⟩⟩)

/-! ## Machine directory resolution (ping.py lines 129-145)

```python
if os.path.islink(os.path.join(var_machines, machine["uuid"])):
    machine_dir = os.readlink(os.path.join(var_machines, machine["uuid"]))
else:
    weights = {}
    for dir in self.config["storage_dir"]:
        try:
            sv = os.statvfs(dir)
            weights[dir] = (sv.f_bsize * sv.f_bavail / 1048576)
        except OSError:
            continue
    chosen_storage_dir = random_weighted(weights)
    if not chosen_storage_dir:
        raise Exception("Cannot find a suitable storage directory")
    machine_dir = os.path.join(chosen_storage_dir, machine["uuid"])
    os.symlink(machine_dir, os.path.join(var_machines, machine["uuid"]))
```

The `var/machines` symlink farm is a map from entry name to symlink target;
`weights` (the surviving `statvfs` probe results, in MiB) and `random_weighted`
(from `utils`, external) are parameters. -/

/-- The `var/machines` directory: symlink name to symlink target. -/
abbrev MachineLinks := List (String × String)

/-- `os.readlink` lookup in `var/machines`. -/
def readMachineLink (links : MachineLinks) (n : String) : Option String :=
  match links with
  | [] => none
  | (k, t) :: rest => if k = n then some t else readMachineLink rest n

/-- Resolve the storage directory of the machine: reuse the recorded symlink if
present, otherwise select a storage directory by weighted random draw over
the probed capacities and record the binding. Returns the machine directory
and the updated `var/machines` state. -/
def resolveMachineDir (links : MachineLinks) (uuid : String)
    (weights : List (String × Nat))
    (randomWeighted : List (String × Nat) → Option String) :
    Except OsError (String × MachineLinks) :=
  match readMachineLink links uuid with
  | some target => .ok (target, links)
  | none =>
    match randomWeighted weights with
    | none => .error .noStorage
    | some chosen =>
      let machineDir := chosen ++ "/" ++ uuid
      .ok (machineDir, links ++ [(uuid, machineDir)])

/-! ## The ping session (ping.py lines 74-277)

Control-flow model of `process_ping`: request parsing, the per-machine lock,
the port check, verbosity, the restore short-circuit, the check-in API call,
the source loop, and the final `lock.close()`. The processing of each
scheduled source (machine-dir resolution, rsync, `afterTransfer`, the
`source_update` API call) is abstracted as the outcome of that source: either its
API payload, or the Python exception that escaped the loop body. None of that
per-source code reads the `verbose` field of the request (lines 116-274 never
mention it; it is only used at lines 92-96 to set the console handler level). -/

/-- The parsed request object (`j`), with the fields `process_ping` reads. -/
structure PingRequest where
  port : Option Int
  verbose : Option Bool
  action : Option String
  deriving Repr, DecidableEq

/-- How a ping session ends. -/
inductive SessionOutcome where
  /-- `Exception("Invalid input JSON")`, raised before the lock is acquired. -/
  | invalidJson : SessionOutcome
  /-- `Exception("Port required")`. -/
  | portRequired : SessionOutcome
  /-- Restore passthrough mode: early `return`. -/
  | restored : SessionOutcome
  /-- The `storage_ping_checkin` API call raised. -/
  | apiError : SessionOutcome
  /-- An exception escaped the scheduled-sources loop. -/
  | sourceError : SessionOutcome
  /-- All scheduled sources processed; `lock.close()` reached. -/
  | completed : SessionOutcome
  deriving Repr, DecidableEq

/-- Observable result of a ping session. `consoleLevel` uses the stdlib
numeric levels: `logging.ERROR = 40` (set in `__init__`), `logging.INFO = 20`. -/
structure SessionResult where
  outcome : SessionOutcome
  lockAcquired : Bool
  lockReleased : Bool
  consoleLevel : Nat
  reports : List SourceUpdate
  deriving Repr, DecidableEq

/-- The scheduled-sources loop: process each source in order; an exception in one source aborts the loop (and the session), otherwise its report is sent and
processing continues. Returns the reports sent and whether the loop finished. -/
def runSources : List (Except OsError SourceUpdate) → List SourceUpdate × Bool
  | [] => ([], true)
  | .error _ :: _ => ([], false)
  | .ok r :: rest => (r :: (runSources rest).1, (runSources rest).2)

/-- The ping session. `parsed` is `none` when the input JSON fails to parse;
`checkin` is `none` when the `storage_ping_checkin` API call raises, and
otherwise carries the outcome of processing each scheduled source. -/
def sessionRun (parsed : Option PingRequest)
    (checkin : Option (List (Except OsError SourceUpdate))) : SessionResult :=
  match parsed with
  | none => ⟨.invalidJson, false, false, 40, []⟩
  | some req =>
    match req.port with
    | none => ⟨.portRequired, true, false, 40, []⟩
    | some _ =>
      let level := if boolTruthy req.verbose then 20 else 40
      if req.action = some "restore" then
        ⟨.restored, true, false, level, []⟩
      else
        match checkin with
        | none => ⟨.apiError, true, false, level, []⟩
        | some sourceRuns =>
          if (runSources sourceRuns).2 then
            ⟨.completed, true, true, level, (runSources sourceRuns).1⟩
          else
            ⟨.sourceError, true, false, level, (runSources sourceRuns).1⟩

/-- The non-logging observables of a session: everything except the console
handler level. -/
def SessionResult.nonLogging (r : SessionResult) :
    SessionOutcome × Bool × Bool × List SourceUpdate :=
  (r.outcome, r.lockAcquired, r.lockReleased, r.reports)

/-- Concatenation of a list of strings (claim-level helper for stating what
the accumulated `filter_data` / summary strings amount to). -/
def joinStrings (l : List String) : String :=
  l.foldl (fun a s => a ++ s) ""

/-- The filter lines the spec claims (C3): kept filter entries verbatim,
followed by one `- e` exclusion line per exclude entry. -/
def claimedFilterLines (filters excludes : List String) : List String :=
  filters.filter (fun f => !isLocalMerge f) ++ excludes.map (fun e => "- " ++ e)

/-!
## Theorems

Each claim of the specification is settled by one theorem below (plus, where
the claim fails on the code, a concrete counterexample theorem). -/

/-- `foldl` over string append with an arbitrary accumulator. -/
theorem joinStrings_foldl (l : List String) (a : String) :
    l.foldl (fun a s => a ++ s) a = a ++ joinStrings l := by
  induction l generalizing a with
  | nil => exact (String.append_empty a).symm
  | cons x xs ih =>
    rw [List.foldl_cons, ih (a ++ x)]
    rw [show joinStrings (x :: xs) = (("" : String) ++ x) ++ joinStrings xs from ih x]
    rw [String.empty_append, String.append_assoc]

/-- `joinStrings`, peeled one element at a time. -/
theorem joinStrings_cons (s : String) (l : List String) :
    joinStrings (s :: l) = s ++ joinStrings l := by
  rw [show joinStrings (s :: l) = l.foldl (fun a s => a ++ s) ("" ++ s) from rfl,
    joinStrings_foldl, String.empty_append]

/-- C1: for every completed transfer, the source is classified successful iff
the transfer tool exits with status 0 or 24; every other status is classified
a failure, in which case no promotion is performed (the storage state is
returned unchanged, with the failure report). -/
theorem claim_C1 (returncode : Int) (ext : Externals) (mode : String)
    (st : SourceState) (sname now : String) (base retention : Option String)
    (t0 t1 : Nat) :
    (transferSuccess returncode = true ↔ (returncode = 0 ∨ returncode = 24)) ∧
    (transferSuccess returncode = false →
      afterTransfer ext mode st sname now base retention returncode t0 t1 =
        .ok (st, ⟨sname, false,
          ⟨none, some ("rsync exited with return code " ++ toString returncode),
           t0, t1⟩⟩)) := by
  constructor
  · simp [transferSuccess]
  · intro h
    simp [afterTransfer, h]

/-- Witness for C1 at exit status 1 (a genuine failure status). -/
theorem claim_C1_witness :
    (transferSuccess 1 = true ↔ ((1 : Int) = 0 ∨ (1 : Int) = 24)) ∧
    afterTransfer ⟨fun _ _ => [], fun _ => ""⟩ "link-dest" ⟨[], none⟩ "db" "T"
        none none 1 0 1 =
      .ok (⟨[], none⟩, ⟨"db", false,
        ⟨none, some ("rsync exited with return code " ++ toString (1 : Int)),
         0, 1⟩⟩) :=
  ⟨(claim_C1 1 ⟨fun _ _ => [], fun _ => ""⟩ "link-dest" ⟨[], none⟩ "db" "T"
      none none 0 1).1,
   (claim_C1 1 ⟨fun _ _ => [], fun _ => ""⟩ "link-dest" ⟨[], none⟩ "db" "T"
      none none 0 1).2 (by decide)⟩

/-- C3: the transfer filter data forwards every source-supplied filter entry
verbatim except entries beginning with `merge` or `:` (dropped), and appends
each exclude entry `e` after all filter entries as the exclusion line `- e`
(each line newline-terminated in the merged filter file). -/
theorem claim_C3 (filters excludes : List String) :
    buildFilterData filters excludes =
      joinStrings ((claimedFilterLines filters excludes).map (fun l => l ++ "\n")) := by
  have hf : ∀ (l : List String) (a : String),
      l.foldl (fun acc f => if isLocalMerge f then acc else acc ++ f ++ "\n") a =
        a ++ joinStrings ((l.filter (fun f => !isLocalMerge f)).map (fun f => f ++ "\n")) := by
    intro l
    induction l with
    | nil => intro a; exact (String.append_empty a).symm
    | cons x xs ih =>
      intro a
      rw [List.foldl_cons, List.filter_cons]
      by_cases hx : isLocalMerge x = true
      · simpa [hx] using ih a
      · rw [if_neg hx, ih]
        rw [Bool.not_eq_true] at hx
        simp [hx, joinStrings_cons, String.append_assoc]
  have he : ∀ (l : List String) (a : String),
      l.foldl (fun acc e => acc ++ "- " ++ e ++ "\n") a =
        a ++ joinStrings (l.map (fun e => ("- " ++ e) ++ "\n")) := by
    intro l
    induction l with
    | nil => intro a; exact (String.append_empty a).symm
    | cons x xs ih =>
      intro a
      rw [List.foldl_cons, ih]
      simp [List.map_cons, joinStrings_cons, String.append_assoc]
  have hjoin : ∀ (l1 l2 : List String),
      joinStrings (l1 ++ l2) = joinStrings l1 ++ joinStrings l2 := by
    intro l1
    induction l1 with
    | nil =>
      intro l2
      rw [List.nil_append]
      exact (String.empty_append _).symm
    | cons x xs ih =>
      intro l2
      rw [List.cons_append, joinStrings_cons, joinStrings_cons, ih, String.append_assoc]
  have hunfold : buildFilterData filters excludes =
      excludes.foldl (fun acc e => acc ++ "- " ++ e ++ "\n")
        (filters.foldl (fun acc f => if isLocalMerge f then acc else acc ++ f ++ "\n") "") :=
    rfl
  rw [hunfold, he, hf, String.empty_append]
  have hlines : claimedFilterLines filters excludes =
      filters.filter (fun f => !isLocalMerge f) ++ excludes.map (fun e => "- " ++ e) :=
    rfl
  rw [hlines, List.map_append, List.map_map, hjoin]
  rfl

/-- C4 counterexample: with the global default configured to `attic` (the
ARCHIVE mode), a source flagged `large_rotating_files` is NOT downgraded to
the FULL (`none`) mode — the downgrade check only runs when the default is
`link-dest`. -/
theorem claim_C4_counterexample :
    ¬ (snapshotModeFor "attic" (some true) none = "none") := by decide

/-- C4 (amended): the snapshot mode starts as the configured global default
and is downgraded to FULL (`none`) when the source is flagged
`large_rotating_files` or `large_modifying_files`, but only when the
configured global default is the incremental `link-dest` mode; under any
other global default the flags are ignored. -/
theorem claim_C4_amended (globalDefault : String) (lrf lmf : Option Bool) :
    snapshotModeFor globalDefault lrf lmf =
      if globalDefault = "link-dest" ∧ (boolTruthy lrf || boolTruthy lmf) = true
      then "none" else globalDefault := by
  by_cases hd : globalDefault = "link-dest"
  · cases hr : boolTruthy lrf <;> cases hm : boolTruthy lmf <;>
      simp [snapshotModeFor, hd, hr, hm]
  · simp [snapshotModeFor, hd]

/-- C5 counterexample: with both a service name and an environment name
present and non-empty, the code derives the alias from the environment name
(with a trailing `-`), not from the service name as the claim states. -/
theorem claim_C5_counterexample :
    ¬ (machineSymlinkName "unit0" (some "svc") (some "env") =
       aliasNameClaim "unit0" (some "svc") (some "env")) := by decide

/-- C5 (amended): the alias name is derived with precedence: the environment
name (suffixed with `-`) when present and non-empty, else the service name
(suffixed with `-`) when present and non-empty, else the unit name; path
separators `/` are then replaced by `_`. -/
theorem claim_C5_amended (unitName : String) (serviceName environmentName : Option String) :
    machineSymlinkName unitName serviceName environmentName =
      replaceSlashes
        (if strTruthy environmentName then environmentName.getD "" ++ "-"
         else if strTruthy serviceName then serviceName.getD "" ++ "-"
         else unitName) := by
  cases serviceName with
  | none =>
    cases environmentName with
    | none => rfl
    | some e =>
      by_cases he : e = "" <;> simp [machineSymlinkName, strTruthy, he]
  | some s =>
    cases environmentName with
    | none =>
      by_cases hs : s = "" <;> simp [machineSymlinkName, strTruthy, hs]
    | some e =>
      by_cases he : e = "" <;> by_cases hs : s = "" <;>
        simp [machineSymlinkName, strTruthy, he, hs]

/-- C2 (code bug): in `link-dest` mode the FIRST successful promotion renames
`working` to the timestamp snapshot and creates `latest` pointing at it, but
on the SECOND successful run — `latest` present as a symlink to an existing
snapshot — the repoint branch calls `os.symlink` onto the existing `latest`
path, which raises `OSError(EEXIST)`: the session aborts and `latest` is
left pointing at the previous snapshot, contradicting the claimed invariant. -/
theorem claim_C2_bug :
    (promoteLinkDest ⟨fun _ _ => [], fun _ => ""⟩ [("working", SnapEntry.dir)]
        "2020-01-01T00:00:00.000000" none none =
      .ok ([("2020-01-01T00:00:00.000000", SnapEntry.dir),
            ("latest", SnapEntry.link "2020-01-01T00:00:00.000000")],
           "2020-01-01T00:00:00.000000", "")) ∧
    (promoteLinkDest ⟨fun _ _ => [], fun _ => ""⟩
        [("2020-01-01T00:00:00.000000", SnapEntry.dir),
         ("latest", SnapEntry.link "2020-01-01T00:00:00.000000"),
         ("working", SnapEntry.dir)]
        "2020-01-02T00:00:00.000000" (some "2020-01-01T00:00:00.000000") none =
      .error OsError.fileExists) :=
  ⟨rfl, rfl⟩

/-- `readMachineLink` finds a freshly appended binding when the name was
previously absent. -/
theorem readMachineLink_append (links : MachineLinks) (uuid t : String)
    (h : readMachineLink links uuid = none) :
    readMachineLink (links ++ [(uuid, t)]) uuid = some t := by
  induction links with
  | nil => simp [readMachineLink]
  | cons p rest ih =>
    rw [readMachineLink] at h
    by_cases hp : p.1 = uuid
    · rw [if_pos hp] at h
      exact absurd h (by simp)
    · rw [if_neg hp] at h
      rw [List.cons_append, readMachineLink, if_neg hp]
      exact ih h

/-- C6: resolving the storage location for the same machine UUID a second
time returns the path recorded by the first resolution and leaves the state
unchanged, whatever storage-directory probe results and selector the second
resolution sees (first-write-wins, idempotent binding). -/
theorem claim_C6 (links : MachineLinks) (uuid : String)
    (w1 w2 : List (String × Nat))
    (c1 c2 : List (String × Nat) → Option String)
    (p : String) (links' : MachineLinks)
    (h : resolveMachineDir links uuid w1 c1 = .ok (p, links')) :
    resolveMachineDir links' uuid w2 c2 = .ok (p, links') := by
  rw [resolveMachineDir] at h
  cases hl : readMachineLink links uuid with
  | some t =>
    rw [hl] at h
    obtain ⟨rfl, rfl⟩ : t = p ∧ links = links' := by
      constructor <;> { cases h; rfl }
    rw [resolveMachineDir, hl]
  | none =>
    rw [hl] at h
    cases hc : c1 w1 with
    | none =>
      rw [hc] at h
      exact absurd h (by simp)
    | some chosen =>
      rw [hc] at h
      obtain ⟨rfl, rfl⟩ : chosen ++ "/" ++ uuid = p ∧
          links ++ [(uuid, chosen ++ "/" ++ uuid)] = links' := by
        constructor <;> { cases h; rfl }
      rw [resolveMachineDir, readMachineLink_append links uuid _ hl]

/-- Witness for C6: a concrete first resolution records `/srv/a/u1`; the
second resolution returns it even though the selector would now choose
nothing at all. -/
theorem claim_C6_witness :
    resolveMachineDir [("u1", "/srv/a/u1")] "u1" [] (fun _ => none) =
      .ok ("/srv/a/u1", [("u1", "/srv/a/u1")]) :=
  claim_C6 [] "u1" [("/srv/a", 5)] [] (fun _ => some "/srv/a") (fun _ => none)
    "/srv/a/u1" [("u1", "/srv/a/u1")] rfl

/-- C7: a transfer exiting with a non-success status leaves the storage state
untouched (no snapshot rename, no archive creation), reports a null snapshot
identifier, the summary `rsync exited with return code N` and `success=false`,
and the scheduled-sources loop continues past any source whose processing
returned normally. -/
theorem claim_C7 (ext : Externals) (mode : String) (st : SourceState)
    (sname now : String) (base retention : Option String) (returncode : Int)
    (t0 t1 : Nat) (r : SourceUpdate) (rest : List (Except OsError SourceUpdate))
    (h0 : returncode ≠ 0) (h24 : returncode ≠ 24) :
    (afterTransfer ext mode st sname now base retention returncode t0 t1 =
      .ok (st, ⟨sname, false,
        ⟨none, some ("rsync exited with return code " ++ toString returncode),
         t0, t1⟩⟩)) ∧
    runSources (Except.ok r :: rest) =
      (r :: (runSources rest).1, (runSources rest).2) := by
  have hs : transferSuccess returncode = false := by
    simp [transferSuccess, h0, h24]
  exact ⟨by simp [afterTransfer, hs], rfl⟩

/-- Witness for C7 at exit status 23 with a concrete follow-up source. -/
theorem claim_C7_witness :
    (afterTransfer ⟨fun _ _ => [], fun _ => ""⟩ "none" ⟨[], none⟩ "home" "T"
        none none 23 2 3 =
      .ok (⟨[], none⟩, ⟨"home", false,
        ⟨none, some ("rsync exited with return code " ++ toString (23 : Int)),
         2, 3⟩⟩)) ∧
    runSources (Except.ok ⟨"home", false, ⟨none, none, 2, 3⟩⟩ :: []) =
      (⟨"home", false, ⟨none, none, 2, 3⟩⟩ :: (runSources []).1, (runSources []).2) :=
  claim_C7 ⟨fun _ _ => [], fun _ => ""⟩ "none" ⟨[], none⟩ "home" "T" none none 23 2 3
    ⟨"home", false, ⟨none, none, 2, 3⟩⟩ [] (by decide) (by decide)

/-- A successful lookup means the name is listed. -/
theorem lookup_mem_names (fs : SnapFS) (n : String) (e : SnapEntry)
    (h : SnapFS.lookup fs n = some e) : n ∈ SnapFS.names fs := by
  induction fs with
  | nil => exact absurd h (by simp [SnapFS.lookup])
  | cons p rest ih =>
    rw [SnapFS.lookup] at h
    by_cases hp : p.1 = n
    · exact hp ▸ List.mem_cons_self p.1 (SnapFS.names rest)
    · rw [if_neg hp] at h
      exact List.mem_cons_of_mem _ (ih h)

/-- Removing entries of a different name does not change a lookup. -/
theorem lookup_filter_ne (fs : SnapFS) (a x : String) (hx : x ≠ a) :
    SnapFS.lookup (fs.filter (fun p => p.1 ≠ a)) x = SnapFS.lookup fs x := by
  induction fs with
  | nil => rfl
  | cons p rest ih =>
    rw [List.filter_cons]
    by_cases hp : p.1 = a
    · rw [if_neg (by simp [hp]), ih,
        show SnapFS.lookup (p :: rest) x =
          if p.1 = x then some p.2 else SnapFS.lookup rest x from rfl,
        if_neg (show ¬ p.1 = x from fun h => hx (h ▸ hp))]
    · rw [if_pos (by simp [hp]),
        show SnapFS.lookup (p :: rest.filter (fun p => p.1 ≠ a)) x =
          if p.1 = x then some p.2
          else SnapFS.lookup (rest.filter (fun p => p.1 ≠ a)) x from rfl,
        show SnapFS.lookup (p :: rest) x =
          if p.1 = x then some p.2 else SnapFS.lookup rest x from rfl]
      by_cases hpx : p.1 = x
      · rw [if_pos hpx, if_pos hpx]
      · rw [if_neg hpx, if_neg hpx, ih]

/-- With unique entry names, a listed entry is what lookup finds. -/
theorem lookup_of_mem_nodup (fs : SnapFS) (p : String × SnapEntry)
    (hp : p ∈ fs) (hnd : (SnapFS.names fs).Nodup) :
    SnapFS.lookup fs p.1 = some p.2 := by
  induction fs with
  | nil => cases hp
  | cons q rest ih =>
    have hnd' : q.1 ∉ SnapFS.names rest ∧ (SnapFS.names rest).Nodup :=
      List.nodup_cons.mp hnd
    rcases List.mem_cons.mp hp with rfl | hmem
    · rw [SnapFS.lookup, if_pos rfl]
    · have hne : ¬ q.1 = p.1 := by
        intro he
        exact hnd'.1 (he ▸ List.mem_map.mpr ⟨p, hmem, rfl⟩)
      rw [SnapFS.lookup, if_neg hne]
      exact ih hmem hnd'.2

/-- A committed snapshot identifier is a listed name. -/
theorem committed_mem_names (fs : SnapFS) (n : String)
    (h : n ∈ committedSnapshots fs) : n ∈ SnapFS.names fs := by
  rw [committedSnapshots] at h
  obtain ⟨p, hp, rfl⟩ := List.mem_map.mp h
  exact List.mem_map.mpr ⟨p, List.mem_of_mem_filter hp, rfl⟩

/-- With unique names, a committed snapshot identifier looks up to a
directory entry. -/
theorem committed_lookup (fs : SnapFS) (n : String)
    (hnd : (SnapFS.names fs).Nodup) (hn : n ∈ committedSnapshots fs) :
    SnapFS.lookup fs n = some SnapEntry.dir := by
  rw [committedSnapshots] at hn
  obtain ⟨p, hp, rfl⟩ := List.mem_map.mp hn
  have hq : p.2 = SnapEntry.dir ∧ p.1 ≠ "working" := by
    simpa using List.of_mem_filter hp
  rw [lookup_of_mem_nodup fs p (List.mem_of_mem_filter hp) hnd, hq.1]

/-- Successive name-based removals collapse into a single filter. -/
theorem filter_ne_notMem (fs : SnapFS) (d : String) (rest : List String) :
    (fs.filter (fun p => p.1 ≠ d)).filter (fun p => p.1 ∉ rest) =
      fs.filter (fun p => p.1 ∉ d :: rest) := by
  rw [List.filter_filter]
  refine List.filter_congr ?_
  intro x _
  by_cases h1 : x.1 = d <;> by_cases h2 : x.1 ∈ rest <;> simp [h1, h2]

/-- The pruning loop deletes exactly the given identifiers (when they name
existing directories, each given once) and appends one summary line per
deletion. -/
theorem pruneSnapshots_spec (del : List String) (fs : SnapFS) (summary : String)
    (hnd : del.Nodup) (hdir : ∀ x ∈ del, SnapFS.lookup fs x = some SnapEntry.dir) :
    pruneSnapshots fs del summary =
      .ok (fs.filter (fun p => p.1 ∉ del),
           summary ++ joinStrings
             (del.map (fun d => "Removed old snapshot: " ++ d ++ "\n"))) := by
  induction del generalizing fs summary with
  | nil =>
    rw [pruneSnapshots]
    simp [joinStrings, String.append_empty]
  | cons d rest ih =>
    have hd : SnapFS.rmtree fs d = .ok (fs.filter (fun p => p.1 ≠ d)) := by
      rw [SnapFS.rmtree, hdir d (List.mem_cons_self d rest)]
    have hnd' : d ∉ rest ∧ rest.Nodup := List.nodup_cons.mp hnd
    have hdir' : ∀ x ∈ rest, SnapFS.lookup (fs.filter (fun p => p.1 ≠ d)) x =
        some SnapEntry.dir := by
      intro x hx
      have hxd : x ≠ d := fun he => hnd'.1 (he ▸ hx)
      rw [lookup_filter_ne fs d x hxd]
      exact hdir x (List.mem_cons_of_mem d hx)
    rw [pruneSnapshots]
    rw [show (do
          let fs' ← SnapFS.rmtree fs d
          pruneSnapshots fs' rest (summary ++ "Removed old snapshot: " ++ d ++ "\n")
        : Except OsError (SnapFS × String)) =
        pruneSnapshots (fs.filter (fun p => p.1 ≠ d)) rest
          (summary ++ "Removed old snapshot: " ++ d ++ "\n") from by rw [hd]; rfl]
    rw [ih _ _ hnd'.2 hdir', filter_ne_notMem]
    simp [joinStrings_cons, String.append_assoc]

/-- C8 counterexample: at the state reached right after the first successful
`link-dest` promotion (committed snapshot `2020-01-01...`, `latest` a symlink
to it), the candidate list the code passes to the retention evaluator
contains `latest` — which is not a committed snapshot identifier — because
the directory test `os.path.isdir` follows symlinks. -/
theorem claim_C8_counterexample :
    "latest" ∈ retentionCandidates
      [("2020-01-01T00:00:00.000000", SnapEntry.dir),
       ("latest", SnapEntry.link "2020-01-01T00:00:00.000000")] ∧
    "latest" ∉ committedSnapshots
      [("2020-01-01T00:00:00.000000", SnapEntry.dir),
       ("latest", SnapEntry.link "2020-01-01T00:00:00.000000")] := by
  decide

/-- C8 (amended): the candidate list passed to the retention evaluator
contains every committed snapshot identifier, but additionally every pointer
entry (such as `latest`) whose symlink resolves to a directory; the pruner
then deletes exactly the identifiers the evaluator returns — each exactly
once, appending one summary line per deletion — provided they name committed
snapshot directories. -/
theorem claim_C8_amended :
    (∀ (fs : SnapFS) (n : String), (SnapFS.names fs).Nodup →
      n ∈ committedSnapshots fs → n ∈ retentionCandidates fs) ∧
    (∀ (fs : SnapFS) (n t : String),
      SnapFS.lookup fs n = some (SnapEntry.link t) →
      SnapFS.lookup fs t = some SnapEntry.dir →
      n ∈ retentionCandidates fs) ∧
    (∀ (fs : SnapFS) (del : List String) (summary : String),
      del.Nodup → (∀ x ∈ del, SnapFS.lookup fs x = some SnapEntry.dir) →
      pruneSnapshots fs del summary =
        .ok (fs.filter (fun p => p.1 ∉ del),
             summary ++ joinStrings
               (del.map (fun d => "Removed old snapshot: " ++ d ++ "\n")))) := by
  refine ⟨?_, ?_, ?_⟩
  · intro fs n hnd hn
    have hl := committed_lookup fs n hnd hn
    have hdir : SnapFS.isdir fs n = true := by rw [SnapFS.isdir, hl]
    exact List.mem_filter.mpr ⟨committed_mem_names fs n hn, hdir⟩
  · intro fs n t hn ht
    have hdir : SnapFS.isdir fs n = true := by simp [SnapFS.isdir, hn, ht]
    exact List.mem_filter.mpr ⟨lookup_mem_names fs n _ hn, hdir⟩
  · intro fs del summary hnd hdir
    exact pruneSnapshots_spec del fs summary hnd hdir

/-- Witness for C8 (amended) at a concrete two-entry snapshots directory. -/
theorem claim_C8_amended_witness :
    ("A" ∈ retentionCandidates
      [("A", SnapEntry.dir), ("latest", SnapEntry.link "A")]) ∧
    ("latest" ∈ retentionCandidates
      [("A", SnapEntry.dir), ("latest", SnapEntry.link "A")]) ∧
    (pruneSnapshots [("A", SnapEntry.dir), ("B", SnapEntry.dir)] ["A"] "" =
      .ok (([("A", SnapEntry.dir), ("B", SnapEntry.dir)] : SnapFS).filter
             (fun p => p.1 ∉ ["A"]),
           "" ++ joinStrings
             ((["A"]).map (fun d => "Removed old snapshot: " ++ d ++ "\n")))) :=
  ⟨claim_C8_amended.1 _ "A" (by decide) (by decide),
   claim_C8_amended.2.1 _ "latest" "A" (by decide) (by decide),
   claim_C8_amended.2.2 _ ["A"] "" (by decide) (by decide)⟩

/-- C9: the per-machine lock is released iff the session reaches the normal
completion step (all scheduled sources processed); it is acquired exactly
when the request parses, so every error path after acquisition — missing
port, check-in API failure, an exception during source processing — and the
restore short-circuit leave the lock held for the life of the process. -/
theorem claim_C9 (parsed : Option PingRequest)
    (checkin : Option (List (Except OsError SourceUpdate))) :
    ((sessionRun parsed checkin).lockReleased =
      decide ((sessionRun parsed checkin).outcome = SessionOutcome.completed)) ∧
    ((sessionRun parsed checkin).lockAcquired = parsed.isSome) := by
  cases parsed with
  | none => simp [sessionRun]
  | some req =>
    cases hp : req.port with
    | none => simp [sessionRun, hp]
    | some prt =>
      by_cases ha : req.action = some "restore"
      · simp [sessionRun, hp, ha]
      · cases checkin with
        | none => simp [sessionRun, hp, ha]
        | some runs =>
          cases hok : (runSources runs).2 <;> simp [sessionRun, hp, ha, hok]

/-- C10: two sessions whose requests differ only in the optional `verbose`
field have identical non-logging behaviour — same outcome, same lock
lifecycle, same per-source API payloads (the per-source processing, and so
the rsync/attic invocations it abstracts, never reads `verbose`); `verbose`
only selects the console log handler level. -/
theorem claim_C10 (req : PingRequest) (v1 v2 : Option Bool)
    (checkin : Option (List (Except OsError SourceUpdate))) :
    (sessionRun (some { req with verbose := v1 }) checkin).nonLogging =
      (sessionRun (some { req with verbose := v2 }) checkin).nonLogging := by
  cases hp : req.port with
  | none => simp [sessionRun, SessionResult.nonLogging, hp]
  | some prt =>
    by_cases ha : req.action = some "restore"
    · simp [sessionRun, SessionResult.nonLogging, hp, ha]
    · cases checkin with
      | none => simp [sessionRun, SessionResult.nonLogging, hp, ha]
      | some runs =>
        cases hok : (runSources runs).2 <;>
          simp [sessionRun, SessionResult.nonLogging, hp, ha, hok]

end TurkuStorage
